import Mathlib

/-!
Verification of the OpenWebUI-WinApp process supervisor core against its
natural-language specification.

The definitions below are a shallow embedding of the Python sources:

* `src/runner/process_state.py`   — the `ProcessState` enum;
* `src/runner/openwebui_runner.py` — `OpenWebUIRunner`: the `start` / `stop`
  guard sections, the `_set_state` subscriber notification, the output buffer
  (`_output_lines` appends in `_output_reader_thread` and `_write_separator`),
  `get_output_lines`, and the `_wait_for_health` loop body;
* `src/app/health_checker.py`     — `HealthChecker.check_availability`;
* `src/ui/console_view.py`        — `ConsoleView.update_content` and
  `ConsoleView.generate_append_script`;
* `src/ui/main_window.py`         — `MainWindow._perform_console_update`.

Python list slicing `lst[k:]` (used with a negative `k` throughout the
sources) is embedded by `pySliceFrom`, including the `lst[-0:] = lst` corner
case. Stateful code is embedded as explicit state-passing functions; the
side effects the claims talk about (subscriber invocations, render actions)
are returned as explicit traces.
-/

namespace OpenWebUI

/-- `ProcessState` from `src/runner/process_state.py`: the closed tag set of
lifecycle states. -/
inductive ProcessState where
  | STOPPED
  | STARTING
  | RUNNING
  | STOPPING
  | ERROR
deriving DecidableEq, Repr, Fintype

open ProcessState

/-- Python `lst[k:]` for an integer `k` (possibly negative): a negative start
counts from the end, clamped at 0; a nonnegative start drops that many
elements (an out-of-range start yields the empty list). This is the exact
semantics of CPython list slicing with an integer lower bound and no upper
bound; note `lst[-0:] = lst[0:] = lst`. -/
def pySliceFrom (l : List String) (k : Int) : List String :=
  if k < 0 then l.drop ((l.length : Int) + k).toNat
  else l.drop k.toNat

/-- `OpenWebUIRunner.get_output_lines` (openwebui_runner.py lines 267-281):
with `max_lines = None` a full copy of `_output_lines`; otherwise the Python
slice `_output_lines[-max_lines:]`. -/
def get_output_lines (buf : List String) (max_lines : Option Int) : List String :=
  match max_lines with
  | none => buf
  | some m => pySliceFrom buf (-m)

/-- One `_output_lines.append(line)` as performed by
`OpenWebUIRunner._output_reader_thread` (lines 342-343) and by
`OpenWebUIRunner._write_separator` (line 447): an unconditional append, with
no cap applied. -/
def output_append (buf : List String) (line : String) : List String :=
  buf ++ [line]

/-- The runner's buffer after appending a whole sequence of lines, one
`output_append` at a time. -/
def appendAll (buf : List String) (lines : List String) : List String :=
  lines.foldl output_append buf

/-- `ConsoleView.update_content` (console_view.py lines 193-208): store the
given lines, then trim to the most recent `max_lines` via the Python slice
`self._lines[-self.max_lines:]` when the length exceeds `max_lines`. -/
def update_content (max_lines : Nat) (lines : List String) : List String :=
  if lines.length > max_lines then pySliceFrom lines (-(max_lines : Int))
  else lines

/-- The guard section of `OpenWebUIRunner.start` (lines 63-68): under the
state lock, reject (return `none`, state unchanged) unless the state is
`STOPPED`; otherwise transition to `STARTING`. -/
def startAccept (s : ProcessState) : Option ProcessState :=
  if s ≠ STOPPED then none else some STARTING

/-- The guard section of `OpenWebUIRunner.stop` (lines 167-172): under the
state lock, reject (return `none`, state unchanged) when the state is
`STOPPED` or `STOPPING`; otherwise transition to `STOPPING`. -/
def stopAccept (s : ProcessState) : Option ProcessState :=
  if s = STOPPED ∨ s = STOPPING then none else some STOPPING

/-- The events at which `OpenWebUIRunner` calls `_set_state`:
`startCall` / `stopCall` are the guarded entry sections of `start` / `stop`;
`startFail` the failure paths of `start` (log-file open failure and the four
exception handlers); `stopOk` / `stopFail` the success and exception paths of
`stop`; `healthOk` / `healthDead` the two guarded transitions of
`_wait_for_health`. -/
inductive RunnerEvent where
  | startCall
  | startFail
  | stopCall
  | stopOk
  | stopFail
  | healthOk
  | healthDead
deriving DecidableEq, Repr, Fintype

/-- Every `_set_state` call site of `openwebui_runner.py`, as a guarded step
function: `some s2` means the runner moves to `s2` (and, since `s2` always
differs from `s`, notifies state subscribers); `none` means the event does
not fire in state `s`. `startFail`, `stopOk` and `stopFail` are sequenced
after their accepted entry events, hence guarded by the state those leave
behind; `healthOk` / `healthDead` re-check `STARTING` under the lock exactly
as lines 395-397, 418-420 and 427-429 do. -/
def stepFn (s : ProcessState) : RunnerEvent → Option ProcessState
  | .startCall => startAccept s
  | .startFail => if s = STARTING then some ERROR else none
  | .stopCall => stopAccept s
  | .stopOk => if s = STOPPING then some STOPPED else none
  | .stopFail => if s = STOPPING then some ERROR else none
  | .healthOk => if s = STARTING then some RUNNING else none
  | .healthDead => if s = STARTING then some ERROR else none

/-- The transition table of spec §3, as the claim states it. -/
def claimedTable (a b : ProcessState) : Bool :=
  match a, b with
  | STOPPED, STARTING => true
  | STARTING, RUNNING => true
  | STARTING, ERROR => true
  | RUNNING, STOPPING => true
  | STOPPING, STOPPED => true
  | ERROR, STARTING => true
  | _, _ => false

/-- The transitions the code actually performs: the claimed table without
`ERROR → STARTING` (never performed, `start` rejects `ERROR`), plus
`STARTING → STOPPING` (stop during startup), `ERROR → STOPPING` (stop
accepted from `ERROR`) and `STOPPING → ERROR` (exception during the stop
sequence). -/
def actualTable (a b : ProcessState) : Bool :=
  match a, b with
  | STOPPED, STARTING => true
  | STARTING, RUNNING => true
  | STARTING, ERROR => true
  | STARTING, STOPPING => true
  | RUNNING, STOPPING => true
  | ERROR, STOPPING => true
  | STOPPING, STOPPED => true
  | STOPPING, ERROR => true
  | _, _ => false

/-- The outcome of the HTTP GET issued by `HealthChecker.check_availability`
(health_checker.py line 49): either a response with some status code, or a
`requests.exceptions.RequestException` (connection refused, timeout, and
every other network error raised by `requests`). -/
inductive HttpResult where
  | response (status : Nat)
  | requestError
deriving DecidableEq, Repr

/-- `HealthChecker.check_availability` (health_checker.py lines 41-60):
`True` when the GET returned and `response.status_code == 200`; `False` on
any other status code; `False` (the exception is caught, never re-raised)
on any `RequestException`. -/
def check_availability : HttpResult → Bool
  | .response s => s == 200
  | .requestError => false

/-- The body of the `_wait_for_health` polling loop (openwebui_runner.py
lines 402-432): how one iteration ends. -/
inductive HealthOutcome where
  | exitSilent
  | exitError
  | exitRunning
  | retry
deriving DecidableEq, Repr

/-- One iteration of the `_wait_for_health` loop (openwebui_runner.py lines
402-432): first, under the state lock, exit silently when the state is no
longer `STARTING`; then, when the child process exists and has exited
(`self._process and self._process.poll() is not None`), set `ERROR` (under
the lock, only if still `STARTING`) and exit; then probe via
`check_availability`, and on success set `RUNNING` (under the lock, only if
still `STARTING`) and exit; otherwise sleep one interval and retry. The
returned state is the runner state after the iteration. -/
def wait_for_health_iteration (s : ProcessState) (childExited : Bool)
    (probeOk : Bool) : HealthOutcome × ProcessState :=
  if s ≠ STARTING then (.exitSilent, s)
  else if childExited then (.exitError, if s = STARTING then ERROR else s)
  else if probeOk then (.exitRunning, if s = STARTING then RUNNING else s)
  else (.retry, s)

/-- A registered state-change subscriber: an identity (its registration
index) together with whether its callback raises an exception on a given
`(old, new)` pair. -/
structure StateSubscriber where
  id : Nat
  throws : ProcessState → ProcessState → Bool

/-- The notification loop of `OpenWebUIRunner._set_state` (lines 318-322):
`for callback in self._state_subscribers: try: callback(old, new) except:
log`. Returns the invocation trace (which subscriber was called, with which
pair, in order) and the ids whose exceptions were caught and logged. -/
def notifyLoop (subs : List StateSubscriber) (o n : ProcessState) :
    List (Nat × ProcessState × ProcessState) × List Nat :=
  match subs with
  | [] => ([], [])
  | sub :: rest =>
    let tail := notifyLoop rest o n
    ((sub.id, o, n) :: tail.1, if sub.throws o n then sub.id :: tail.2 else tail.2)

/-- `OpenWebUIRunner._set_state` (lines 305-322): assign the new state, and
when it differs from the old one notify every state subscriber. Returns the
invocation trace and logged-error ids. -/
def set_state (subs : List StateSubscriber) (old_state new_state : ProcessState) :
    List (Nat × ProcessState × ProcessState) × List Nat :=
  if old_state ≠ new_state then notifyLoop subs old_state new_state else ([], [])

/-- `ConsoleView._escape_html` (console_view.py lines 158-174). -/
def escape_html (text : String) : String :=
  ((((text.replace ("&") ("&amp;")).replace ("<") ("&lt;")).replace (">")
    ("&gt;")).replace ("\"") ("&quot;")).replace ("\x27") ("&#x27;")

/-- The JavaScript string escaping of `ConsoleView.generate_append_script`
(console_view.py line 149): escape backslashes, single quotes, newlines and
carriage returns. -/
def jsStringEscape (s : String) : String :=
  (((s.replace ("\\") ("\\\\")).replace ("\x27") ("\\\x27")).replace ("\n")
    ("\\n")).replace ("\r") ("\\r")

/-- `ConsoleView.generate_append_script` (console_view.py lines 129-156):
empty string for an empty line list; otherwise a JavaScript call
`appendLines([...], true|false);` over the HTML- and JS-escaped lines. -/
def generate_append_script (new_lines : List String) (auto_scroll : Bool) : String :=
  if new_lines = [] then ""
  else
    let escaped := new_lines.map
      (fun line => "\x27" ++ jsStringEscape (escape_html line) ++ "\x27")
    let lines_array := "[" ++ String.intercalate (", ") escaped ++ "]"
    let auto_scroll_str := if auto_scroll then "true" else "false"
    "appendLines(" ++ lines_array ++ ", " ++ auto_scroll_str ++ ");"

/-- The renderer bookkeeping of `MainWindow`: `_console_initialized` and
`_last_console_line_count`. -/
structure RenderState where
  consoleInited : Bool
  lastCount : Nat
deriving DecidableEq, Repr

/-- The externally visible effect of one render pass of
`MainWindow._perform_console_update`: a full rebuild of the view from a
snapshot (`update_content` + `generate_initial_html` + `load_html`), a
successful `evaluate_js` append of the new lines, or an `evaluate_js` call
that raised. -/
inductive RenderAction where
  | fullRender (lines : List String)
  | appendNew (newLines : List String)
  | failedAppend (newLines : List String)
deriving DecidableEq, Repr

/-- `MainWindow._perform_console_update` (main_window.py lines 331-383).
`windowPresent` embeds the truthiness of `self.window`, `evalOk` whether
`evaluate_js` succeeds. When `evaluate_js` raises, the code sets
`_console_initialized = False` and re-enters itself with the same snapshot;
that recursive call necessarily takes the full-render branch, which is
inlined here as the `failedAppend` case. When the script is empty or no
window exists, nothing happens and `_last_console_line_count` is not
updated. -/
def perform_console_update (st : RenderState) (lines : List String)
    (auto_scroll : Bool) (windowPresent : Bool) (evalOk : Bool) :
    RenderState × List RenderAction :=
  let n := lines.length
  if st.consoleInited = false ∨ n < st.lastCount then
    (⟨true, n⟩, [.fullRender lines])
  else
    let newCount := n - st.lastCount
    if newCount > 0 then
      let newLines := pySliceFrom lines (-(newCount : Int))
      let script := generate_append_script newLines auto_scroll
      if script ≠ "" ∧ windowPresent then
        if evalOk then ({ st with lastCount := n }, [.appendNew newLines])
        else (⟨true, n⟩, [.failedAppend newLines, .fullRender lines])
      else (st, [])
    else (st, [])

/-- 80 copies of the `=` character: the `'=' * 80` of
`OpenWebUIRunner._write_separator` (line 442). Strings are embedded as
character lists here so that Python's `str.split` is computable
structurally. -/
def eq80 : List Char := List.replicate 80 '='

/-- The f-string of `_write_separator` (line 442):
`'='*80`, newline, `timestamp - ACTION`, newline, `'='*80`. -/
def separatorString (ts action : List Char) : List Char :=
  eq80 ++ '\n' :: (ts ++ [' ', '-', ' '] ++ action) ++ '\n' :: eq80

/-- Python `s.split("\n")` on a character list: split at every newline,
keeping empty pieces (CPython semantics for an explicit separator). -/
def pySplitNl : List Char → List (List Char)
  | [] => [[]]
  | c :: rest =>
    if c = '\n' then [] :: pySplitNl rest
    else
      match pySplitNl rest with
      | [] => [[c]]
      | g :: gs => (c :: g) :: gs

/-- `OpenWebUIRunner._write_separator` (lines 434-457), restricted to its
console-buffer effect: under the output lock, for each line of the separator
split on newlines, append the line to `_output_lines` and notify every
output subscriber with it. Returns the new buffer and the notification
trace (subscriber id, line), lines outermost. -/
def write_separator (buf : List String) (subIds : List Nat)
    (ts action : List Char) : List String × List (Nat × String) :=
  (buf ++ (pySplitNl (separatorString ts action)).map String.mk,
   ((pySplitNl (separatorString ts action)).map String.mk).foldr
     (fun line acc => subIds.map (fun i => (i, line)) ++ acc) [])

/-! ### Helper lemmas -/

/-- Appending lines one `output_append` at a time is list concatenation. -/
theorem appendAll_eq (buf lines : List String) : appendAll buf lines = buf ++ lines := by
  induction lines generalizing buf with
  | nil => simp [appendAll]
  | cons l rest ih =>
    simp only [appendAll, List.foldl_cons] at *
    rw [ih, output_append]
    simp

/-- `pySliceFrom` with a negative start `-n` (for `n ≥ 1`) keeps the last
`min n length` elements. -/
theorem pySliceFrom_neg (l : List String) (n : Nat) (hn : 1 ≤ n) :
    pySliceFrom l (-(n : Int)) = l.drop (l.length - n) := by
  have hlt : -(n : Int) < 0 := by omega
  simp only [pySliceFrom, if_pos hlt]
  congr 1
  omega

/-- Every step the runner performs changes the state, so `_set_state`
notifies subscribers on every accepted transition. -/
theorem stepFn_changes (s : ProcessState) (e : RunnerEvent) (s2 : ProcessState) :
    stepFn s e = some s2 → s ≠ s2 := by
  revert s e s2
  decide

/-- The notification loop calls every subscriber once, in order, with the
given pair, and records exactly the throwing subscribers as logged. -/
theorem notifyLoop_spec (subs : List StateSubscriber) (o n : ProcessState) :
    (notifyLoop subs o n).1 = subs.map (fun sub => (sub.id, o, n)) ∧
    (notifyLoop subs o n).2 =
      (subs.filter (fun sub => sub.throws o n)).map StateSubscriber.id := by
  induction subs with
  | nil => simp [notifyLoop]
  | cons sub rest ih =>
    simp only [notifyLoop, List.map_cons, List.filter_cons]
    refine ⟨by rw [ih.1], ?_⟩
    by_cases h : sub.throws o n = true
    · simp [h, ih.2]
    · simp only [Bool.not_eq_true] at h
      simp [h, ih.2]

/-! ### C1 — output buffer cap -/

/-- C1, counterexample: the claim says the supervisor's buffer, observed via
`get_output_lines` with no limit, never holds more than 1000 lines; but
after appending 1001 lines to an empty runner the unlimited snapshot holds
1001 lines. -/
theorem C1_counterexample :
    (get_output_lines (appendAll [] (List.replicate 1001 ("line"))) none).length = 1001 ∧
    ¬(get_output_lines (appendAll [] (List.replicate 1001 ("line"))) none).length ≤ 1000 := by
  have h : get_output_lines (appendAll [] (List.replicate 1001 ("line"))) none =
      List.replicate 1001 ("line") := by
    show appendAll [] (List.replicate 1001 ("line")) = _
    rw [appendAll_eq, List.nil_append]
  rw [h, List.length_replicate]
  exact ⟨rfl, by omega⟩

/-- C1, amended: the supervisor's own output buffer is unbounded — appends
never discard, and the unlimited `get_output_lines` snapshot is the whole
append history in arrival order. The cap is applied only by
`ConsoleView.update_content` on its own copy of the lines, where (for any
cap ≥ 1) exactly the most recent `min length cap` lines are retained, in
original order, as the suffix of the input. -/
theorem C1_amended (buf lines : List String) (cap : Nat) (hcap : 1 ≤ cap) :
    get_output_lines (appendAll buf lines) none = buf ++ lines ∧
    update_content cap lines = lines.drop (lines.length - cap) ∧
    (update_content cap lines).length = min lines.length cap := by
  refine ⟨by simp [get_output_lines, appendAll_eq], ?_, ?_⟩
  · by_cases h : lines.length > cap
    · simp only [update_content, if_pos h]
      exact pySliceFrom_neg lines cap hcap
    · simp only [update_content, if_neg h]
      have : lines.length - cap = 0 := by omega
      simp [this]
  · by_cases h : lines.length > cap
    · simp only [update_content, if_pos h, pySliceFrom_neg lines cap hcap,
        List.length_drop]
      omega
    · simp only [update_content, if_neg h]
      omega

/-- C1 witness: the spec's own example scaled down — appending 1500 lines
with cap 1000 through `update_content` retains exactly lines 501–1500. -/
theorem C1_amended_witness :
    get_output_lines (appendAll [] (List.replicate 1500 ("x"))) none =
      List.replicate 1500 ("x") ∧
    update_content 1000 (List.replicate 1500 ("x")) =
      (List.replicate 1500 ("x")).drop 500 ∧
    (update_content 1000 (List.replicate 1500 ("x"))).length = 1000 := by
  have h := C1_amended [] (List.replicate 1500 ("x")) 1000 (by omega)
  rw [List.nil_append, List.length_replicate] at h
  have h2 : (1500 : Nat) - 1000 = 500 := by norm_num
  have h3 : min (1500 : Nat) 1000 = 1000 := by norm_num
  rw [h2, h3] at h
  exact h

/-! ### C2 — start() guard -/

/-- C2, counterexample: the claim says `start()` in state `ERROR` is
accepted and transitions to `STARTING`; the guard section of `start`
rejects every state other than `STOPPED`, so in `ERROR` it returns `False`
with no transition. -/
theorem C2_counterexample :
    startAccept ProcessState.ERROR = none ∧
    startAccept ProcessState.ERROR ≠ some ProcessState.STARTING := by
  decide

/-- C2, amended: `start()` returns false and changes nothing whenever the
current state is not `STOPPED` — in particular `start()` in `ERROR` is a
rejected no-op (there is no direct `ERROR → STARTING` retry; recovery from
`ERROR` goes through `stop()` first). From `STOPPED` it is accepted and
transitions to `STARTING`. -/
theorem C2_amended (s : ProcessState) :
    (startAccept s = some ProcessState.STARTING ↔ s = ProcessState.STOPPED) ∧
    (s ≠ ProcessState.STOPPED → startAccept s = none) := by
  revert s
  decide

/-- C2 witness: instantiated at `ERROR`, which the original claim said was
accepted. -/
theorem C2_amended_witness : startAccept ProcessState.ERROR = none :=
  (C2_amended ProcessState.ERROR).2 (by decide)

/-! ### C3 — stop() guard -/

/-- C3, counterexample: the claim says `stop()` in state `ERROR` is a
rejected no-op; the guard of `stop` rejects only `STOPPED` and `STOPPING`,
so in `ERROR` the call is accepted and transitions to `STOPPING`. -/
theorem C3_counterexample :
    stopAccept ProcessState.ERROR = some ProcessState.STOPPING ∧
    stopAccept ProcessState.ERROR ≠ none := by
  decide

/-- C3, amended: `stop()` returns false and changes nothing exactly when the
current state is `STOPPED` or `STOPPING`; from `STARTING`, `RUNNING` and
also `ERROR` it is accepted and transitions to `STOPPING`. -/
theorem C3_amended (s : ProcessState) :
    (stopAccept s = none ↔ s = ProcessState.STOPPED ∨ s = ProcessState.STOPPING) ∧
    ((s = ProcessState.STARTING ∨ s = ProcessState.RUNNING ∨ s = ProcessState.ERROR) →
      stopAccept s = some ProcessState.STOPPING) := by
  revert s
  decide

/-- C3 witness: instantiated at `ERROR`, which the original claim said was
rejected. -/
theorem C3_amended_witness : stopAccept ProcessState.ERROR = some ProcessState.STOPPING :=
  (C3_amended ProcessState.ERROR).2 (by decide)

/-! ### C4 — transition table -/

/-- C4, counterexample: a two-step reachable run that leaves the claimed
table — `start()` from `STOPPED` reaches `STARTING`, then `stop()` during
startup is accepted and performs `STARTING → STOPPING`, a transition the
section-3 table does not contain. -/
theorem C4_counterexample :
    stepFn ProcessState.STOPPED RunnerEvent.startCall = some ProcessState.STARTING ∧
    stepFn ProcessState.STARTING RunnerEvent.stopCall = some ProcessState.STOPPING ∧
    claimedTable ProcessState.STARTING ProcessState.STOPPING = false := by
  decide

/-- C4, amended: every state change the runner performs (and hence every
pair notified to subscribers) lies in the table {STOPPED→STARTING,
STARTING→RUNNING, STARTING→ERROR, STARTING→STOPPING, RUNNING→STOPPING,
ERROR→STOPPING, STOPPING→STOPPED, STOPPING→ERROR}; conversely every entry
of that table is realized by some event, and `ERROR → STARTING` from the
claimed table is never performed. -/
theorem C4_amended :
    (∀ (s : ProcessState) (e : RunnerEvent) (s2 : ProcessState),
      stepFn s e = some s2 → actualTable s s2 = true ∧ s ≠ s2) ∧
    (∀ a b : ProcessState, actualTable a b = true →
      ∃ e : RunnerEvent, stepFn a e = some b) ∧
    (∀ e : RunnerEvent, stepFn ProcessState.ERROR e ≠ some ProcessState.STARTING) := by
  decide

/-- C4 witness: the amended table applied to the accepted `start()`
transition from `STOPPED`. -/
theorem C4_amended_witness :
    actualTable ProcessState.STOPPED ProcessState.STARTING = true ∧
    ProcessState.STOPPED ≠ ProcessState.STARTING :=
  C4_amended.1 ProcessState.STOPPED RunnerEvent.startCall ProcessState.STARTING (by decide)

/-! ### C5 — get_output_lines -/

/-- C5, counterexample: the claim says `get_output_lines(0)` returns the
empty sequence; on the buffer `["a"]` the Python slice `lst[-0:]` is
`lst[0:]`, so the call returns the whole buffer `["a"]`. -/
theorem C5_counterexample :
    get_output_lines (["a"]) (some 0) = ["a"] ∧
    get_output_lines (["a"]) (some 0) ≠ [] := by
  constructor
  · rfl
  · intro h
    simp [get_output_lines, pySliceFrom] at h

/-- C5, amended: for every requested count `n ≥ 1`, `get_output_lines(n)`
returns exactly the last `min n length` lines of the buffer, in original
order (the suffix after dropping `length - n`); `get_output_lines(0)`
returns the whole buffer (Python `lst[-0:]` is `lst[0:]`), and the
no-argument call returns the whole buffer. -/
theorem C5_amended (buf : List String) (n : Nat) (hn : 1 ≤ n) :
    get_output_lines buf (some (n : Int)) = buf.drop (buf.length - n) ∧
    (get_output_lines buf (some (n : Int))).length = min n buf.length ∧
    get_output_lines buf (some 0) = buf ∧
    get_output_lines buf none = buf := by
  have h1 : get_output_lines buf (some (n : Int)) = buf.drop (buf.length - n) :=
    pySliceFrom_neg buf n hn
  refine ⟨h1, ?_, ?_, rfl⟩
  · rw [h1, List.length_drop]
    omega
  · simp [get_output_lines, pySliceFrom]

/-- C5 witness: on a three-line buffer, requesting 2 lines yields the final
two lines, the zero request yields everything, and the no-limit request
yields everything. -/
theorem C5_amended_witness :
    get_output_lines (["a", "b", "c"]) (some 2) = ["b", "c"] ∧
    get_output_lines (["a", "b", "c"]) (some 0) = ["a", "b", "c"] ∧
    get_output_lines (["a", "b", "c"]) none = ["a", "b", "c"] := by
  have h := C5_amended (["a", "b", "c"]) 2 (by decide)
  exact ⟨h.1, h.2.2.1, h.2.2.2⟩

/-! ### C6 — health probe -/

/-- C6, counterexample: the claim says any 2xx status yields `True`; a 204
response is 2xx-class yet `check_availability` returns `False`, because the
code compares `status_code == 200` exactly. -/
theorem C6_counterexample :
    check_availability (HttpResult.response 204) = false ∧
    200 ≤ 204 ∧ 204 ≤ 299 := by
  decide

/-- C6, amended: a single health probe returns true precisely when the HTTP
GET yields a response with status code exactly 200; every other status, and
every request exception (connection refused, timeout, any network error
raised by `requests`), yields false — the exception is caught, never
raised to the caller. -/
theorem C6_amended (r : HttpResult) :
    check_availability r = true ↔ r = HttpResult.response 200 := by
  cases r with
  | response s => simp [check_availability]
  | requestError => simp [check_availability]

/-- C6 witness: a 200 response probes healthy, via the amended theorem. -/
theorem C6_amended_witness : check_availability (HttpResult.response 200) = true :=
  (C6_amended (HttpResult.response 200)).mpr rfl

/-! ### C7 — console render pass -/

/-- `generate_append_script` yields a nonempty script for a nonempty line
list (it starts with the literal `appendLines(`), so the
`if script and self.window` guard of `_perform_console_update` passes
whenever a window exists. -/
theorem generate_append_script_ne_empty (new_lines : List String)
    (auto_scroll : Bool) (h : new_lines ≠ []) :
    generate_append_script new_lines auto_scroll ≠ "" := by
  simp only [generate_append_script, if_neg h]
  intro hc
  have hdata := congrArg String.data hc
  simp [String.data_append] at hdata

/-- C7: one render pass of `_perform_console_update`, with a window present.
If the view is uninitialized or the snapshot is shorter than the last
rendered count, it is a full render from the snapshot leaving
`initialized = true`, `lastCount = n`. Otherwise with `n > lastCount` and a
successful `evaluate_js`, it appends exactly the last `n - lastCount` lines
(the suffix `lines.drop lastCount`) and sets `lastCount = n`; if
`evaluate_js` raises, it falls back to a full render from the same
snapshot. With `n = lastCount` it does nothing. -/
theorem C7_render_pass (st : RenderState) (lines : List String)
    (auto_scroll evalOk : Bool) :
    ((st.consoleInited = false ∨ lines.length < st.lastCount) →
      perform_console_update st lines auto_scroll true evalOk =
        (⟨true, lines.length⟩, [RenderAction.fullRender lines])) ∧
    (st.consoleInited = true → st.lastCount < lines.length →
      ((evalOk = true →
        perform_console_update st lines auto_scroll true evalOk =
          (⟨true, lines.length⟩,
            [RenderAction.appendNew (lines.drop st.lastCount)])) ∧
       (evalOk = false →
        perform_console_update st lines auto_scroll true evalOk =
          (⟨true, lines.length⟩,
            [RenderAction.failedAppend (lines.drop st.lastCount),
             RenderAction.fullRender lines])) ∧
       (lines.drop st.lastCount).length = lines.length - st.lastCount)) ∧
    (st.consoleInited = true → lines.length = st.lastCount →
      perform_console_update st lines auto_scroll true evalOk = (st, [])) := by
  refine ⟨?_, ?_, ?_⟩
  · intro h
    simp only [perform_console_update, if_pos h]
  · intro hInit hlt
    have hguard : ¬(st.consoleInited = false ∨ lines.length < st.lastCount) := by
      rw [hInit]
      push_neg
      exact ⟨by simp, by omega⟩
    have hpos : lines.length - st.lastCount > 0 := by omega
    have hNL : pySliceFrom lines (-(((lines.length - st.lastCount) : Nat) : Int)) =
        lines.drop st.lastCount := by
      rw [pySliceFrom_neg lines (lines.length - st.lastCount) (by omega)]
      congr 1
      omega
    have hlen : (lines.drop st.lastCount).length = lines.length - st.lastCount := by
      rw [List.length_drop]
    have hne : lines.drop st.lastCount ≠ [] := by
      intro hnil
      rw [hnil] at hlen
      simp only [List.length_nil] at hlen
      omega
    have hscript := generate_append_script_ne_empty (lines.drop st.lastCount)
      auto_scroll hne
    refine ⟨?_, ?_, hlen⟩
    · intro hEval
      simp only [perform_console_update, if_neg hguard, if_pos hpos, hNL, hEval, hInit]
      simp [hscript]
      omega
    · intro hEval
      simp only [perform_console_update, if_neg hguard, if_pos hpos, hNL, hEval, hInit]
      simp [hscript]
      omega
  · intro hInit heq
    have hguard : ¬(st.consoleInited = false ∨ lines.length < st.lastCount) := by
      rw [hInit]
      push_neg
      exact ⟨by simp, by omega⟩
    have hzero : ¬(lines.length - st.lastCount > 0) := by omega
    simp only [perform_console_update, if_neg hguard, if_neg hzero]

/-- C7 witness: a snapshot grown from 1 to 2 lines appends exactly the new
final line; an unchanged snapshot does nothing. -/
theorem C7_render_pass_witness :
    perform_console_update ⟨true, 1⟩ (["a", "b"]) true true true =
      (⟨true, 2⟩, [RenderAction.appendNew (["b"])]) ∧
    perform_console_update ⟨true, 2⟩ (["a", "b"]) true true true =
      (⟨true, 2⟩, []) := by
  constructor
  · have h := ((C7_render_pass ⟨true, 1⟩ (["a", "b"]) true true).2.1 rfl
      (by decide)).1 rfl
    simpa using h
  · exact (C7_render_pass ⟨true, 2⟩ (["a", "b"]) true true).2.2 rfl rfl

/-! ### C8 — health-wait worker iteration -/

/-- C8: one iteration of the `_wait_for_health` loop exits silently without
touching the state when the state is no longer `STARTING`; when still
`STARTING` and the child has exited, it transitions to `ERROR` and exits;
when still `STARTING`, child alive and the probe succeeds, it transitions to
`RUNNING` and exits; on probe failure it retries, state untouched; and it
never changes the state unless the state was `STARTING`. -/
theorem C8_health_iteration (s : ProcessState) (childExited probeOk : Bool) :
    (s ≠ STARTING →
      wait_for_health_iteration s childExited probeOk = (HealthOutcome.exitSilent, s)) ∧
    (s = STARTING → childExited = true →
      wait_for_health_iteration s childExited probeOk = (HealthOutcome.exitError, ERROR)) ∧
    (s = STARTING → childExited = false → probeOk = true →
      wait_for_health_iteration s childExited probeOk = (HealthOutcome.exitRunning, RUNNING)) ∧
    (s = STARTING → childExited = false → probeOk = false →
      wait_for_health_iteration s childExited probeOk = (HealthOutcome.retry, STARTING)) ∧
    ((wait_for_health_iteration s childExited probeOk).2 ≠ s → s = STARTING) := by
  revert s childExited probeOk
  decide

/-- C8 witness: in state `STARTING` with a live child and a successful
probe, the iteration transitions to `RUNNING` and exits. -/
theorem C8_health_iteration_witness :
    wait_for_health_iteration STARTING false true = (HealthOutcome.exitRunning, RUNNING) :=
  (C8_health_iteration STARTING false true).2.2.1 rfl rfl rfl

/-! ### C9 — state-change subscriber delivery -/

/-- C9: on every accepted transition (every step the runner performs), the
old and new states differ, so `_set_state` runs its notification loop: each
registered subscriber is invoked exactly once, in registration order, with
the correct `(old, new)` pair — whether or not any subscriber throws — and
the subscribers whose callbacks raise are exactly the ones logged, without
preventing delivery to the rest. -/
theorem C9_subscriber_delivery (subs : List StateSubscriber) (s : ProcessState)
    (e : RunnerEvent) (s2 : ProcessState) (h : stepFn s e = some s2) :
    (set_state subs s s2).1 = subs.map (fun sub => (sub.id, s, s2)) ∧
    (set_state subs s s2).2 =
      (subs.filter (fun sub => sub.throws s s2)).map StateSubscriber.id := by
  have hne := stepFn_changes s e s2 h
  simp only [set_state, if_pos hne]
  exact notifyLoop_spec subs s s2

/-- C9 witness: two subscribers, the first of which always throws, on the
accepted `STOPPED → STARTING` transition: both are invoked, in order, with
the correct pair, and only the first is logged as failed. -/
theorem C9_subscriber_delivery_witness :
    (set_state [⟨0, fun _ _ => true⟩, ⟨1, fun _ _ => false⟩]
        STOPPED STARTING).1 =
      [(0, STOPPED, STARTING), (1, STOPPED, STARTING)] ∧
    (set_state [⟨0, fun _ _ => true⟩, ⟨1, fun _ _ => false⟩]
        STOPPED STARTING).2 = [0] := by
  have h := C9_subscriber_delivery [⟨0, fun _ _ => true⟩, ⟨1, fun _ _ => false⟩]
    STOPPED RunnerEvent.startCall STARTING (by decide)
  simpa using h

/-! ### C10 — lifecycle separators -/

/-- The separator frame contains no newline. -/
theorem nl_not_mem_eq80 : '\n' ∉ eq80 := by
  intro h
  rw [eq80, List.mem_replicate] at h
  exact absurd h.2 (by decide)

/-- Python `split("\n")` on newline-free text yields that text alone. -/
theorem pySplitNl_no_nl (a : List Char) (h : '\n' ∉ a) : pySplitNl a = [a] := by
  induction a with
  | nil => rfl
  | cons c rest ih =>
    have hc : ¬(c = '\n') := by
      intro hc
      exact h (List.mem_cons.mpr (Or.inl hc.symm))
    have hrest : '\n' ∉ rest := fun hm => h (List.mem_cons.mpr (Or.inr hm))
    simp only [pySplitNl, if_neg hc, ih hrest]

/-- Python `split("\n")` peels a leading newline-free chunk. -/
theorem pySplitNl_append (a r : List Char) (h : '\n' ∉ a) :
    pySplitNl (a ++ '\n' :: r) = a :: pySplitNl r := by
  induction a with
  | nil => simp [pySplitNl]
  | cons c rest ih =>
    have hc : ¬(c = '\n') := by
      intro hc
      exact h (List.mem_cons.mpr (Or.inl hc.symm))
    have hrest : '\n' ∉ rest := fun hm => h (List.mem_cons.mpr (Or.inr hm))
    simp only [List.cons_append, pySplitNl, if_neg hc, List.append_eq, ih hrest]

/-- The separator f-string splits on newlines into exactly the frame line,
the `timestamp - ACTION` line, and the frame line again. -/
theorem separator_split (ts action : List Char) (hts : '\n' ∉ ts)
    (ha : '\n' ∉ action) :
    pySplitNl (separatorString ts action) =
      [eq80, ts ++ [' ', '-', ' '] ++ action, eq80] := by
  have hmid : '\n' ∉ ts ++ [' ', '-', ' '] ++ action := by
    intro hm
    rcases List.mem_append.mp hm with h1 | h2
    · rcases List.mem_append.mp h1 with h3 | h4
      · exact hts h3
      · simp at h4
    · exact ha h2
  have hshape : separatorString ts action =
      eq80 ++ '\n' :: ((ts ++ [' ', '-', ' '] ++ action) ++ '\n' :: eq80) := by
    simp [separatorString]
  rw [hshape, pySplitNl_append eq80 _ nl_not_mem_eq80,
    pySplitNl_append _ _ hmid, pySplitNl_no_nl eq80 nl_not_mem_eq80]

/-- C10: a lifecycle separator write appends exactly three lines to the
output buffer — the 80-`=` frame, the `timestamp - ACTION` line, and the
frame again — and notifies every output subscriber once per line, line by
line in that order; the lines then sit at the tail of the unlimited
`get_output_lines` snapshot. Holds whenever the timestamp and the action
contain no newline (the `%Y-%m-%d %H:%M:%S` timestamps and the
STARTING/STOPPING/STOPPED/RESTARTING actions never do). -/
theorem C10_separator (buf : List String) (subIds : List Nat)
    (ts action : List Char) (hts : '\n' ∉ ts) (ha : '\n' ∉ action) :
    (write_separator buf subIds ts action).1 =
      buf ++ [String.mk eq80, String.mk (ts ++ [' ', '-', ' '] ++ action),
        String.mk eq80] ∧
    (write_separator buf subIds ts action).1.length = buf.length + 3 ∧
    (write_separator buf subIds ts action).2 =
      subIds.map (fun i => (i, String.mk eq80)) ++
      subIds.map (fun i => (i, String.mk (ts ++ [' ', '-', ' '] ++ action))) ++
      subIds.map (fun i => (i, String.mk eq80)) ∧
    get_output_lines (write_separator buf subIds ts action).1 none =
      buf ++ [String.mk eq80, String.mk (ts ++ [' ', '-', ' '] ++ action),
        String.mk eq80] := by
  have hsplit := separator_split ts action hts ha
  unfold write_separator
  rw [hsplit]
  refine ⟨rfl, by simp, ?_, rfl⟩
  simp [List.append_assoc]

/-- C10 witness: a concrete `STARTING` separator on a one-line buffer with
one subscriber appends the three separator lines and delivers three
notifications in order. -/
theorem C10_separator_witness :
    (write_separator (["x"]) ([7]) (("2024-01-01 00:00:00").data)
        (("STARTING").data)).1 =
      ["x"] ++ [String.mk eq80,
        String.mk ((("2024-01-01 00:00:00").data) ++ [' ', '-', ' '] ++
          (("STARTING").data)), String.mk eq80] ∧
    (write_separator (["x"]) ([7]) (("2024-01-01 00:00:00").data)
        (("STARTING").data)).1.length = 4 ∧
    (write_separator (["x"]) ([7]) (("2024-01-01 00:00:00").data)
        (("STARTING").data)).2 =
      [(7, String.mk eq80),
       (7, String.mk ((("2024-01-01 00:00:00").data) ++ [' ', '-', ' '] ++
          (("STARTING").data))),
       (7, String.mk eq80)] := by
  have h := C10_separator (["x"]) ([7]) (("2024-01-01 00:00:00").data)
    (("STARTING").data) (by decide) (by decide)
  exact ⟨h.1, by rw [h.2.1]; rfl, by rw [h.2.2.1]; rfl⟩

end OpenWebUI
